import Mathlib

/-!
Shallow embedding of the decision/triage core of the wind-fault orchestrator
(`src/app/rules_engine.py`, `src/app/background_worker.py`, and the router
entry points in `src/app/routers/alarms.py` and
`src/app/routers/recommendations.py`).

Datetimes are modelled as integer minutes; Python floats whose values are
exactly representable (temperatures, thresholds, downtime estimates) are
modelled as rationals.  The database session is modelled as explicit lists of
records; a `session.commit()` boundary corresponds to producing a new list
value.
-/

/-- `AlarmSeverity` enum from `src/app/models.py`. -/
inductive AlarmSeverity where
  | low
  | medium
  | high
  | critical
deriving DecidableEq, Repr

/-- The `.value` string of an `AlarmSeverity` member (Python `str` enum). -/
def AlarmSeverity.value : AlarmSeverity → String
  | .low => "low"
  | .medium => "medium"
  | .high => "high"
  | .critical => "critical"

/-- `AlarmStatus` enum from `src/app/models.py`. -/
inductive AlarmStatus where
  | active
  | acknowledged
  | resolved
deriving DecidableEq, Repr

/-- `RecommendationAction` enum from `src/app/models.py`. -/
inductive RecommendationAction where
  | reset
  | escalate
  | wait_cool_down
  | snooze
  | manual_inspection
deriving DecidableEq, Repr

/-- `RecommendationPriority` enum from `src/app/models.py`. -/
inductive RecommendationPriority where
  | low
  | medium
  | high
  | urgent
deriving DecidableEq, Repr

/-- The `Alarm` table row from `src/app/models.py` (the fields the decision
core reads).  `occurred_at` is in minutes; `temperature_c` is the optional
temperature reading. -/
structure Alarm where
  id : Nat
  turbine_db_id : Nat
  alarm_code : String
  alarm_description : String
  severity : AlarmSeverity
  status : AlarmStatus
  occurred_at : Int
  resettable : Bool
  temperature_c : Option Rat
deriving DecidableEq, Repr

/-- `RulesEngine.TEMP_THRESHOLD` (`src/app/rules_engine.py`): 75.0 °C. -/
def TEMP_THRESHOLD : Rat := 75

/-- `RulesEngine.TEMP_CRITICAL_CODES` (`src/app/rules_engine.py`). -/
def TEMP_CRITICAL_CODES : List String :=
  ["EM_83", "TEMP_HIGH", "GEARBOX_OVERHEAT", "GEARBOX_TEMP_HIGH"]

/-- `RulesEngine.FREQ_24H_THRESHOLD` (`src/app/rules_engine.py`). -/
def FREQ_24H_THRESHOLD : Nat := 4

/-- `RulesEngine.FREQ_7D_THRESHOLD` (`src/app/rules_engine.py`). -/
def FREQ_7D_THRESHOLD : Nat := 8

/-- `RulesEngine.OSCILLATION_WINDOW` in minutes (`src/app/rules_engine.py`). -/
def OSCILLATION_WINDOW : Int := 10

/-- `RulesEngine._check_oscillation` (`src/app/rules_engine.py`, lines
192-216): same turbine, same alarm code, `occurred_at >= cutoff`,
`occurred_at < alarm.occurred_at`, current alarm excluded by id; true when
the result set is non-empty. -/
def check_oscillation (alarm : Alarm) (hist : List Alarm) : Bool :=
  let cutoff := alarm.occurred_at - OSCILLATION_WINDOW
  decide (0 < (hist.filter fun a =>
    a.turbine_db_id == alarm.turbine_db_id &&
    a.alarm_code == alarm.alarm_code &&
    decide (cutoff ≤ a.occurred_at) &&
    decide (a.occurred_at < alarm.occurred_at) &&
    a.id != alarm.id).length)

/-- `RulesEngine._count_alarms_in_window` (`src/app/rules_engine.py`, lines
218-242): same turbine, same alarm code, `occurred_at >= cutoff`; the window
is `hours` hours, i.e. `60 * hours` minutes.  There is no upper time bound
and the current alarm itself is not excluded. -/
def count_alarms_in_window (alarm : Alarm) (hist : List Alarm) (hours : Int) : Nat :=
  let cutoff := alarm.occurred_at - 60 * hours
  (hist.filter fun a =>
    a.turbine_db_id == alarm.turbine_db_id &&
    a.alarm_code == alarm.alarm_code &&
    decide (cutoff ≤ a.occurred_at)).length

/-- `RulesEngine.decide_action` (`src/app/rules_engine.py`, lines 123-190):
the precedence-ordered rule chain returning `(action, rationale)`. -/
def decide_action (alarm : Alarm) (hist : List Alarm) : RecommendationAction × String :=
  if !alarm.resettable then
    (.escalate, "Alarm is not resettable and requires manual intervention.")
  else if check_oscillation alarm hist then
    (.escalate,
      s!"Oscillation detected: Same fault code appeared twice within {OSCILLATION_WINDOW} minutes.")
  else
    let freq24 := count_alarms_in_window alarm hist 24
    let freq7d := count_alarms_in_window alarm hist 168
    if FREQ_24H_THRESHOLD ≤ freq24 then
      (.escalate,
        s!"High frequency: {freq24} occurrences in last 24 hours (threshold: {FREQ_24H_THRESHOLD}).")
    else if FREQ_7D_THRESHOLD ≤ freq7d then
      (.escalate,
        s!"High frequency: {freq7d} occurrences in last 7 days (threshold: {FREQ_7D_THRESHOLD}).")
    else if TEMP_CRITICAL_CODES.contains alarm.alarm_code then
      match alarm.temperature_c with
      | some t =>
        if TEMP_THRESHOLD < t then
          (.wait_cool_down,
            s!"Temperature {t}°C exceeds threshold {TEMP_THRESHOLD}°C. Wait for cool-down.")
        else
          (.reset, "Conditions allow for automatic reset. No escalation required.")
      | none =>
        (.reset, "Conditions allow for automatic reset. No escalation required.")
    else
      (.reset, "Conditions allow for automatic reset. No escalation required.")

/-- One entry of `RulesEngine.ALARM_RULES` (`src/app/rules_engine.py`). -/
structure AlarmRule where
  title : String
  description : String
  priority : RecommendationPriority
  action_items : List String
  estimated_downtime_hours : Rat
deriving DecidableEq, Repr

/-- `RulesEngine.ALARM_RULES` (`src/app/rules_engine.py`, lines 38-121): the
static alarm-code → recommendation-template lookup table. -/
def ALARM_RULES (code : String) : Option AlarmRule :=
  if code = "GEARBOX_TEMP_HIGH" then some
    { title := "Gearbox Temperature Critical"
      description := "Gearbox temperature exceeds safe operating limits. Immediate inspection required."
      priority := .urgent
      action_items := ["Reduce turbine load immediately", "Schedule emergency maintenance inspection",
        "Check lubrication system", "Monitor temperature every 15 minutes"]
      estimated_downtime_hours := 4 }
  else if code = "GENERATOR_VIBRATION" then some
    { title := "Generator Vibration Detected"
      description := "Abnormal vibration patterns detected in generator. May indicate bearing issues."
      priority := .high
      action_items := ["Schedule vibration analysis", "Inspect generator bearings",
        "Check alignment", "Review maintenance logs"]
      estimated_downtime_hours := 8 }
  else if code = "PITCH_SYSTEM_FAULT" then some
    { title := "Pitch System Malfunction"
      description := "Blade pitch control system is not responding correctly."
      priority := .high
      action_items := ["Stop turbine operation", "Inspect pitch motors and drives",
        "Check hydraulic system pressure", "Test backup pitch system"]
      estimated_downtime_hours := 12 }
  else if code = "YAW_ERROR" then some
    { title := "Yaw System Error"
      description := "Yaw system unable to align turbine with wind direction."
      priority := .medium
      action_items := ["Inspect yaw motors", "Check yaw brake system",
        "Calibrate wind direction sensors", "Verify control system signals"]
      estimated_downtime_hours := 6 }
  else if code = "GRID_DISCONNECT" then some
    { title := "Grid Connection Lost"
      description := "Turbine disconnected from power grid."
      priority := .urgent
      action_items := ["Check grid voltage and frequency", "Inspect circuit breakers",
        "Verify protection relay settings", "Contact grid operator"]
      estimated_downtime_hours := 2 }
  else if code = "LOW_WIND_SPEED" then some
    { title := "Low Wind Speed"
      description := "Wind speed below cut-in threshold."
      priority := .low
      action_items := ["Monitor wind conditions", "Verify anemometer readings",
        "Check for ice buildup on blades"]
      estimated_downtime_hours := 0 }
  else if code = "EM_83" then some
    { title := "EM-83 Fault Code"
      description := "Critical system fault detected."
      priority := .urgent
      action_items := ["Immediate system inspection required", "Check system diagnostics",
        "Review fault logs"]
      estimated_downtime_hours := 4 }
  else none

/-- `RulesEngine._get_priority_for_action` (`src/app/rules_engine.py`, lines
320-341): the action-based priority override. -/
def get_priority_for_action (action : RecommendationAction)
    (default_priority : RecommendationPriority) : RecommendationPriority :=
  match action with
  | .escalate => .urgent
  | .wait_cool_down => .high
  | .snooze => .medium
  | _ => default_priority

/-- One tier of the severity mapping in
`RulesEngine._generate_generic_recommendation` (`src/app/rules_engine.py`). -/
structure SeverityInfo where
  priority : RecommendationPriority
  action_items : List String
  estimated_downtime_hours : Rat
deriving DecidableEq, Repr

/-- The `severity_mapping` table of
`RulesEngine._generate_generic_recommendation` (`src/app/rules_engine.py`,
lines 361-405).  The source falls back to the MEDIUM tier for severities
missing from the dict; the enum is closed, so the mapping is total. -/
def severity_mapping : AlarmSeverity → SeverityInfo
  | .critical =>
    { priority := .urgent
      action_items := ["Stop turbine operation immediately", "Dispatch emergency maintenance team",
        "Perform safety inspection", "Contact manufacturer support"]
      estimated_downtime_hours := 24 }
  | .high =>
    { priority := .high
      action_items := ["Schedule urgent maintenance inspection", "Review recent operational data",
        "Check related system components", "Reduce turbine load if safe"]
      estimated_downtime_hours := 12 }
  | .medium =>
    { priority := .medium
      action_items := ["Schedule routine maintenance inspection", "Monitor alarm frequency",
        "Review maintenance history", "Check sensor calibration"]
      estimated_downtime_hours := 4 }
  | .low =>
    { priority := .low
      action_items := ["Log alarm for trending analysis", "Monitor during next scheduled maintenance",
        "Verify sensor readings"]
      estimated_downtime_hours := 0 }

/-- The dictionary returned by `RulesEngine.generate_recommendation`
(`src/app/rules_engine.py`).  The dict carries no `snooze_until` key, so a
`Recommendation` built from it gets the model default `NULL`. -/
structure RecommendationData where
  alarm_db_id : Nat
  title : String
  description : String
  priority : RecommendationPriority
  action : RecommendationAction
  rationale : String
  action_items : List String
  estimated_downtime_hours : Rat
  is_automated : Bool
deriving DecidableEq, Repr

/-- `RulesEngine._generate_generic_recommendation`
(`src/app/rules_engine.py`, lines 343-420). -/
def generate_generic_recommendation (alarm : Alarm) (action : RecommendationAction)
    (rationale : String) : RecommendationData :=
  let info := severity_mapping alarm.severity
  let code := alarm.alarm_code
  let sev := alarm.severity.value
  let descr := alarm.alarm_description
  { alarm_db_id := alarm.id
    title := s!"Generic Recommendation for {code}"
    description := s!"Standard response for {sev} severity alarm: {descr}"
    priority := get_priority_for_action action info.priority
    action := action
    rationale := rationale
    action_items := info.action_items
    estimated_downtime_hours := info.estimated_downtime_hours
    is_automated := true }

/-- `RulesEngine.generate_recommendation` (`src/app/rules_engine.py`, lines
277-318).  The `session` argument is `Optional`; with no session the advanced
rules are skipped and the action defaults to MANUAL_INSPECTION. -/
def generate_recommendation (alarm : Alarm) (session : Option (List Alarm)) :
    RecommendationData :=
  let ar : RecommendationAction × String :=
    match session with
    | some hist => decide_action alarm hist
    | none => (.manual_inspection, "Manual inspection required.")
  match ALARM_RULES alarm.alarm_code with
  | some rule =>
    { alarm_db_id := alarm.id
      title := rule.title
      description := rule.description
      priority := get_priority_for_action ar.1 rule.priority
      action := ar.1
      rationale := ar.2
      action_items := rule.action_items
      estimated_downtime_hours := rule.estimated_downtime_hours
      is_automated := true }
  | none => generate_generic_recommendation alarm ar.1 ar.2

/-- The default priority the factory feeds into the override: the
code-specific template's priority when the alarm code has one, otherwise the
severity tier's priority. -/
def template_default_priority (alarm : Alarm) : RecommendationPriority :=
  match ALARM_RULES alarm.alarm_code with
  | some rule => rule.priority
  | none => (severity_mapping alarm.severity).priority

/-- The `Turbine` table row from `src/app/models.py` (the fields the state
machine touches). -/
structure Turbine where
  id : Nat
  turbine_id : String
  state : String
  last_state_change : Option Int
  updated_at : Int
deriving DecidableEq, Repr

/-- The action → state assignments inside `RulesEngine.update_turbine_state`
(`src/app/rules_engine.py`, lines 473-482); MANUAL_INSPECTION keeps the
current state. -/
def action_new_state (action : RecommendationAction) (current : String) : String :=
  match action with
  | .escalate => "Faulted"
  | .wait_cool_down => "Cooling"
  | .reset => "Online"
  | .snooze => "Stopped"
  | .manual_inspection => current

/-- `RulesEngine.update_turbine_state` (`src/app/rules_engine.py`, lines
453-489): load the turbine by id (missing turbine → no-op), compute the new
state, and write it with fresh `last_state_change` / `updated_at` stamps only
when it differs from the stored state. -/
def update_turbine_state (turbines : List Turbine) (turbine_id : Nat)
    (action : RecommendationAction) (now : Int) : List Turbine :=
  match turbines.find? (fun t => t.id == turbine_id) with
  | none => turbines
  | some t =>
    let newState := action_new_state action t.state
    if newState = t.state then turbines
    else turbines.map fun u =>
      if u.id == turbine_id then
        { u with state := newState, last_state_change := some now, updated_at := now }
      else u

/-- The `Recommendation` table row from `src/app/models.py` (the fields the
core touches). -/
structure Recommendation where
  id : Nat
  alarm_db_id : Nat
  title : String
  description : String
  priority : RecommendationPriority
  action : Option RecommendationAction
  rationale : Option String
  snooze_until : Option Int
  action_items : List String
  estimated_downtime_hours : Option Rat
  is_automated : Bool
deriving DecidableEq, Repr

/-- `Recommendation(**recommendation_data)`: a row built from the factory
dict.  The dict has no `snooze_until` key, so the row keeps the model default
`NULL`. -/
def recommendation_of_data (id : Nat) (d : RecommendationData) : Recommendation :=
  { id := id
    alarm_db_id := d.alarm_db_id
    title := d.title
    description := d.description
    priority := d.priority
    action := some d.action
    rationale := some d.rationale
    snooze_until := none
    action_items := d.action_items
    estimated_downtime_hours := some d.estimated_downtime_hours
    is_automated := d.is_automated }

/-- The persistent store visible to the core: the three tables. -/
structure WorkerDB where
  alarms : List Alarm
  recommendations : List Recommendation
  turbines : List Turbine
deriving DecidableEq, Repr

/-- The expiry query of `BackgroundWorker.check_snoozed_alarms`
(`src/app/background_worker.py`, lines 59-63): action == SNOOZE,
`snooze_until` non-null and `snooze_until <= now`. -/
def expired_snoozed (recs : List Recommendation) (now : Int) : List Recommendation :=
  recs.filter fun r =>
    r.action == some RecommendationAction.snooze &&
    (match r.snooze_until with
     | some t => decide (t ≤ now)
     | none => false)

/-- The per-item body of `BackgroundWorker.check_snoozed_alarms`
(`src/app/background_worker.py`, lines 73-126): load the originating alarm
(missing alarm → skip); skip when its status is resolved or acknowledged;
otherwise re-run the factory with the session, persist the new
recommendation, update the turbine state (the factory's action is always a
non-empty enum string, hence truthy), clear the old recommendation's
`snooze_until` (supersession), and commit. -/
def process_expired_recommendation (db : WorkerDB) (now : Int) (newRecId : Nat)
    (rec : Recommendation) : WorkerDB :=
  match db.alarms.find? (fun a => a.id == rec.alarm_db_id) with
  | none => db
  | some alarm =>
    if alarm.status = .resolved ∨ alarm.status = .acknowledged then db
    else
      let data := generate_recommendation alarm (some db.alarms)
      let newRec := recommendation_of_data newRecId data
      let turbines := update_turbine_state db.turbines alarm.turbine_db_id data.action now
      { db with
        recommendations :=
          (db.recommendations.map fun r =>
            if r.id == rec.id then { r with snooze_until := none } else r) ++ [newRec]
        turbines := turbines }

/-- One reconciliation cycle of `BackgroundWorker.check_snoozed_alarms`
(`src/app/background_worker.py`, lines 50-126): query the expired snoozed
recommendations once, then process each item in turn against the evolving
store.  `firstId` seeds the ids of the newly created recommendations. -/
def check_snoozed_alarms (db : WorkerDB) (now : Int) (firstId : Nat) : WorkerDB :=
  ((expired_snoozed db.recommendations now).foldl
    (fun acc r => (process_expired_recommendation acc.1 now acc.2 r, acc.2 + 1))
    (db, firstId)).1

/-- The `AlarmCreate` request schema from `src/app/schemas.py` (the fields the
decision core reads). -/
structure AlarmCreate where
  turbine_id : String
  alarm_code : String
  alarm_description : String
  severity : AlarmSeverity
  occurred_at : Int
  resettable : Bool
  temperature_c : Option Rat
deriving DecidableEq, Repr

/-- The alarm row inserted by `ingest_alarm` (`src/app/routers/alarms.py`):
the request fields plus the resolved `turbine_db_id`, status defaulting to
ACTIVE. -/
def ingested_alarm (ac : AlarmCreate) (turbine : Turbine) (newAlarmId : Nat) : Alarm :=
  { id := newAlarmId
    turbine_db_id := turbine.id
    alarm_code := ac.alarm_code
    alarm_description := ac.alarm_description
    severity := ac.severity
    status := .active
    occurred_at := ac.occurred_at
    resettable := ac.resettable
    temperature_c := ac.temperature_c }

/-- `ingest_alarm` (`src/app/routers/alarms.py`, lines 17-73).  Missing
turbine → 404 with nothing persisted.  Otherwise the alarm is committed,
the factory recommendation is committed in a second transaction, and the
source then calls `RulesEngine.update_turbine_state(turbine.id,
db_recommendation.action, db_alarm, session)` — four arguments against the
three-parameter signature `(turbine_id, action, session)` — so Python raises
`TypeError` at that call: the turbine state is never updated, while the alarm
and the recommendation stay committed. -/
def ingest_alarm (db : WorkerDB) (ac : AlarmCreate) (newAlarmId newRecId : Nat) :
    WorkerDB × Except String Nat :=
  match db.turbines.find? (fun t => t.turbine_id == ac.turbine_id) with
  | none => (db, .error "404: Turbine not found")
  | some turbine =>
    let alarm := ingested_alarm ac turbine newAlarmId
    let db1 : WorkerDB := { db with alarms := db.alarms ++ [alarm] }
    let data := generate_recommendation alarm (some db1.alarms)
    let db2 : WorkerDB :=
      { db1 with recommendations := db1.recommendations ++ [recommendation_of_data newRecId data] }
    (db2, .error "TypeError: update_turbine_state() takes 4 positional arguments but 5 were given")

/-- The `RecommendationCreate` request schema from `src/app/schemas.py`. -/
structure RecommendationCreate where
  alarm_id : Nat
  title : String
  description : String
  priority : RecommendationPriority
  action : Option RecommendationAction
  rationale : Option String
  snooze_until : Option Int
  action_items : List String
  estimated_downtime_hours : Option Rat
  is_automated : Bool
deriving DecidableEq, Repr

/-- `create_manual_recommendation` (`src/app/routers/recommendations.py`,
lines 139-171).  Missing alarm → 404.  Otherwise the source builds
`Recommendation(**recommendation_data, alarm_db_id=..., is_automated=False)`
where `recommendation_data` already contains the schema's `is_automated`
field, so Python raises `TypeError` (duplicate keyword argument) before any
row is created: the endpoint never persists anything. -/
def create_manual_recommendation (db : WorkerDB) (rc : RecommendationCreate) :
    WorkerDB × Except String Nat :=
  match db.alarms.find? (fun a => a.id == rc.alarm_id) with
  | none => (db, .error "404: Alarm not found")
  | some _ =>
    (db, .error "TypeError: got multiple values for keyword argument is_automated")

/-- `generate_recommendation_for_alarm`
(`src/app/routers/recommendations.py`, lines 103-136): loads the alarm and
calls `RulesEngine.generate_recommendation(alarm)` with no session, then
persists the resulting recommendation. -/
def generate_recommendation_for_alarm (db : WorkerDB) (alarm_id : Nat) (newId : Nat) :
    WorkerDB × Except String Nat :=
  match db.alarms.find? (fun a => a.id == alarm_id) with
  | none => (db, .error "404: Alarm not found")
  | some alarm =>
    let d := generate_recommendation alarm none
    ({ db with recommendations := db.recommendations ++ [recommendation_of_data newId d] },
      .ok newId)

/-! ### Concrete records used by witnesses and counterexamples -/

/-- A baseline resettable yaw alarm on turbine 1. -/
def yaw_alarm : Alarm :=
  { id := 1, turbine_db_id := 1, alarm_code := "YAW_ERROR"
    alarm_description := "Yaw system unable to align turbine with wind direction."
    severity := .medium, status := .active, occurred_at := 0
    resettable := true, temperature_c := none }

/-- First of a pair of oscillating yaw alarms (minute 0). -/
def osc_first : Alarm := { yaw_alarm with id := 1, occurred_at := 0 }

/-- Second of the pair, five minutes later. -/
def osc_second : Alarm := { yaw_alarm with id := 2, occurred_at := 5 }

/-- Four same-code alarms spread five hours apart inside one 24-hour span. -/
def freq_e1 : Alarm := { yaw_alarm with id := 11, occurred_at := 0 }

/-- Second of the four frequency alarms. -/
def freq_e2 : Alarm := { yaw_alarm with id := 12, occurred_at := 300 }

/-- Third of the four frequency alarms. -/
def freq_e3 : Alarm := { yaw_alarm with id := 13, occurred_at := 600 }

/-- Fourth of the four frequency alarms. -/
def freq_e4 : Alarm := { yaw_alarm with id := 14, occurred_at := 900 }

/-- A non-resettable alarm. -/
def manual_alarm : Alarm := { yaw_alarm with id := 9, resettable := false }

/-- A temperature-critical alarm reading 80 °C. -/
def hot_alarm : Alarm := { yaw_alarm with id := 8, alarm_code := "EM_83", temperature_c := some 80 }

/-- A turbine that is Online. -/
def turbine_one : Turbine :=
  { id := 1, turbine_id := "T-1", state := "Online", last_state_change := some 0, updated_at := 0 }

/-- A snoozed recommendation for alarm 1, expired at minute 0. -/
def old_rec : Recommendation :=
  { id := 1, alarm_db_id := 1, title := "Snoozed", description := "deferred"
    priority := .medium, action := some .snooze, rationale := some "deferred"
    snooze_until := some 0, action_items := [], estimated_downtime_hours := none
    is_automated := true }

/-- A store holding an active alarm, its snoozed recommendation, and turbine 1. -/
def db_snooze : WorkerDB :=
  { alarms := [yaw_alarm], recommendations := [old_rec], turbines := [turbine_one] }

/-- The same store with the alarm already resolved. -/
def db_skip : WorkerDB :=
  { alarms := [{ yaw_alarm with status := .resolved }]
    recommendations := [old_rec], turbines := [turbine_one] }

/-- An ingestion request for turbine `T-1` with a non-resettable grid fault. -/
def grid_request : AlarmCreate :=
  { turbine_id := "T-1", alarm_code := "GRID_DISCONNECT"
    alarm_description := "Turbine disconnected from power grid."
    severity := .high, occurred_at := 0, resettable := false, temperature_c := none }

/-- An empty store holding only turbine 1. -/
def db_ingest : WorkerDB := { alarms := [], recommendations := [], turbines := [turbine_one] }

/-! ### Helper lemmas -/

/-- The state written for an action is a fixed point of the same action. -/
theorem action_new_state_idem (a : RecommendationAction) (s : String) :
    action_new_state a (action_new_state a s) = action_new_state a s := by
  cases a <;> rfl

/-- `find?` commutes with a map that preserves the predicate. -/
theorem find?_map_pres {α : Type} (f : α → α) (p : α → Bool) (hp : ∀ u, p (f u) = p u)
    (l : List α) : (l.map f).find? p = (l.find? p).map f := by
  induction l with
  | nil => rfl
  | cons x xs ih =>
    by_cases hx : p x = true
    · simp [List.find?, hp x, hx]
    · simp only [List.map_cons, List.find?]
      rw [hp x]
      simp [hx, ih]

/-- The rule chain of `decide_action` only ever returns ESCALATE,
WAIT_COOL_DOWN or RESET. -/
theorem decide_action_hits_rule_table (alarm : Alarm) (hist : List Alarm) :
    (decide_action alarm hist).1 = .escalate ∨
    (decide_action alarm hist).1 = .wait_cool_down ∨
    (decide_action alarm hist).1 = .reset := by
  unfold decide_action
  dsimp only
  split
  · simp
  split
  · simp
  split
  · simp
  split
  · simp
  split
  · split
    · split <;> simp
    · simp
  · simp

/-! ### Claim theorems -/

/-- C1: every alarm with `resettable = false` is decided ESCALATE with the
manual-intervention rationale by precedence rule 1, regardless of the event
history, temperature reading, oscillation, or frequency counts. -/
theorem not_resettable_always_escalates (alarm : Alarm) (hist : List Alarm)
    (h : alarm.resettable = false) :
    decide_action alarm hist =
      (.escalate, "Alarm is not resettable and requires manual intervention.") := by
  simp [decide_action, h]

/-- `not_resettable_always_escalates` at the concrete non-resettable alarm
`manual_alarm` against a non-trivial history. -/
theorem not_resettable_always_escalates_witness :
    manual_alarm.resettable = false ∧
    decide_action manual_alarm [osc_first, freq_e1] =
      (.escalate, "Alarm is not resettable and requires manual intervention.") :=
  ⟨rfl, not_resettable_always_escalates manual_alarm [osc_first, freq_e1] rfl⟩

/-- C4: `_check_oscillation` holds iff some other event with the same fault
code on the same asset occurred strictly before the event and at or after
`occurred_at - 10` minutes, excluding the event itself by id; consequently
the second of two same-code events five minutes apart (the second
resettable) is decided ESCALATE with the oscillation rationale. -/
theorem oscillation_iff_and_five_minute_example :
    (∀ (alarm : Alarm) (hist : List Alarm),
      check_oscillation alarm hist = true ↔
        ∃ a ∈ hist, a.turbine_db_id = alarm.turbine_db_id ∧
          a.alarm_code = alarm.alarm_code ∧
          alarm.occurred_at - 10 ≤ a.occurred_at ∧
          a.occurred_at < alarm.occurred_at ∧
          a.id ≠ alarm.id) ∧
    decide_action osc_second [osc_first, osc_second] =
      (.escalate, "Oscillation detected: Same fault code appeared twice within 10 minutes.") := by
  constructor
  · intro alarm hist
    simp [check_oscillation, OSCILLATION_WINDOW, List.length_pos_iff_exists_mem,
      List.mem_filter, and_assoc]
  · decide

/-- C5: `_count_alarms_in_window` counts exactly the events with the same
fault code on the same asset occurring at or after `occurred_at - hours`,
inclusive of the event itself whenever it belongs to the history (for any
nonnegative window); and the fourth of four same-code events inside a
24-hour span, all resettable and none oscillating, is decided ESCALATE by
the 24-hour frequency rule (count 4 meets threshold 4), not the default
RESET. -/
theorem count_window_inclusive_and_fourth_escalates :
    (∀ (alarm : Alarm) (hist : List Alarm) (hours : Int),
      count_alarms_in_window alarm hist hours =
        hist.countP (fun a =>
          decide (a.turbine_db_id = alarm.turbine_db_id ∧
            a.alarm_code = alarm.alarm_code ∧
            alarm.occurred_at - 60 * hours ≤ a.occurred_at))) ∧
    (∀ (alarm : Alarm) (hist : List Alarm) (hours : Int),
      0 ≤ hours → alarm ∈ hist → 1 ≤ count_alarms_in_window alarm hist hours) ∧
    decide_action freq_e4 [freq_e1, freq_e2, freq_e3, freq_e4] =
      (.escalate, "High frequency: 4 occurrences in last 24 hours (threshold: 4).") := by
  have hpq : ∀ (alarm a : Alarm) (hours : Int),
      (a.turbine_db_id == alarm.turbine_db_id && a.alarm_code == alarm.alarm_code &&
        decide (alarm.occurred_at - 60 * hours ≤ a.occurred_at)) =
      decide (a.turbine_db_id = alarm.turbine_db_id ∧ a.alarm_code = alarm.alarm_code ∧
        alarm.occurred_at - 60 * hours ≤ a.occurred_at) := by
    intro alarm a hours
    by_cases h1 : a.turbine_db_id = alarm.turbine_db_id <;>
      by_cases h2 : a.alarm_code = alarm.alarm_code <;>
      by_cases h3 : alarm.occurred_at - 60 * hours ≤ a.occurred_at <;>
      simp [h1, h2, h3]
  refine ⟨?_, ?_, by decide⟩
  · intro alarm hist hours
    simp only [count_alarms_in_window, List.countP_eq_length_filter, hpq]
  · intro alarm hist hours hh hmem
    have hmem2 : alarm ∈ hist.filter (fun a =>
        a.turbine_db_id == alarm.turbine_db_id && a.alarm_code == alarm.alarm_code &&
        decide (alarm.occurred_at - 60 * hours ≤ a.occurred_at)) :=
      List.mem_filter.mpr ⟨hmem, by simp; omega⟩
    simpa [count_alarms_in_window] using List.length_pos_of_mem hmem2

/-- `count_window_inclusive_and_fourth_escalates` instantiated: the first of
the four frequency alarms counts itself in its own 24-hour window. -/
theorem count_window_inclusive_witness :
    0 ≤ (24 : Int) ∧ freq_e1 ∈ [freq_e1, freq_e2, freq_e3, freq_e4] ∧
    1 ≤ count_alarms_in_window freq_e1 [freq_e1, freq_e2, freq_e3, freq_e4] 24 :=
  ⟨by decide, by decide,
    count_window_inclusive_and_fourth_escalates.2.1 freq_e1
      [freq_e1, freq_e2, freq_e3, freq_e4] 24 (by decide) (by decide)⟩

/-- C6: for a resettable temperature-critical alarm with no oscillation and
frequency counts below both thresholds, a reading of 80 °C decides
WAIT_COOL_DOWN, a reading of 70 °C decides RESET (the 75 °C comparison is
strict), and a missing reading never triggers the temperature rule. -/
theorem temp_threshold_strict (alarm : Alarm) (hist : List Alarm)
    (hres : alarm.resettable = true)
    (hcode : TEMP_CRITICAL_CODES.contains alarm.alarm_code = true)
    (hosc : check_oscillation alarm hist = false)
    (h24 : count_alarms_in_window alarm hist 24 < FREQ_24H_THRESHOLD)
    (h7d : count_alarms_in_window alarm hist 168 < FREQ_7D_THRESHOLD) :
    (alarm.temperature_c = some 80 →
      decide_action alarm hist = (.wait_cool_down,
        "Temperature 80°C exceeds threshold 75°C. Wait for cool-down.")) ∧
    (alarm.temperature_c = some 70 → (decide_action alarm hist).1 = .reset) ∧
    (alarm.temperature_c = none → (decide_action alarm hist).1 = .reset) := by
  have h24n : ¬ (FREQ_24H_THRESHOLD ≤ count_alarms_in_window alarm hist 24) := Nat.not_le.mpr h24
  have h7dn : ¬ (FREQ_7D_THRESHOLD ≤ count_alarms_in_window alarm hist 168) := Nat.not_le.mpr h7d
  have hmem : alarm.alarm_code ∈ TEMP_CRITICAL_CODES := by simpa using hcode
  have h80 : TEMP_THRESHOLD < (80 : Rat) := by norm_num [TEMP_THRESHOLD]
  have h70 : ¬ TEMP_THRESHOLD < (70 : Rat) := by norm_num [TEMP_THRESHOLD]
  refine ⟨fun ht => ?_, fun ht => ?_, fun ht => ?_⟩
  · simp [decide_action, hres, hosc, h24n, h7dn, hmem, ht, h80]
    rfl
  · simp [decide_action, hres, hosc, h24n, h7dn, hmem, ht, h70]
  · simp [decide_action, hres, hosc, h24n, h7dn, hmem, ht]

/-- `temp_threshold_strict` at the concrete 80 °C temperature-critical alarm
`hot_alarm`, whose history is only itself. -/
theorem temp_threshold_strict_witness :
    hot_alarm.resettable = true ∧
    TEMP_CRITICAL_CODES.contains hot_alarm.alarm_code = true ∧
    check_oscillation hot_alarm [hot_alarm] = false ∧
    count_alarms_in_window hot_alarm [hot_alarm] 24 < FREQ_24H_THRESHOLD ∧
    count_alarms_in_window hot_alarm [hot_alarm] 168 < FREQ_7D_THRESHOLD ∧
    decide_action hot_alarm [hot_alarm] = (.wait_cool_down,
      "Temperature 80°C exceeds threshold 75°C. Wait for cool-down.") :=
  ⟨rfl, by decide, by decide, by decide, by decide,
    (temp_threshold_strict hot_alarm [hot_alarm] rfl (by decide) (by decide)
      (by decide) (by decide)).1 rfl⟩

/-- C7: the priority override is total — for every default priority, ESCALATE
yields URGENT, WAIT_COOL_DOWN yields HIGH, SNOOZE yields MEDIUM, and any
other action keeps the default — and the factory always computes its final
priority as this override applied to the template's default priority,
whether the template is code-specific or a severity tier. -/
theorem priority_override_total :
    (∀ d : RecommendationPriority,
      get_priority_for_action .escalate d = .urgent ∧
      get_priority_for_action .wait_cool_down d = .high ∧
      get_priority_for_action .snooze d = .medium ∧
      get_priority_for_action .reset d = d ∧
      get_priority_for_action .manual_inspection d = d) ∧
    (∀ (alarm : Alarm) (s : Option (List Alarm)),
      (generate_recommendation alarm s).priority =
        get_priority_for_action (generate_recommendation alarm s).action
          (template_default_priority alarm)) := by
  constructor
  · exact fun d => ⟨rfl, rfl, rfl, rfl, rfl⟩
  · intro alarm s
    unfold generate_recommendation template_default_priority generate_generic_recommendation
    cases ALARM_RULES alarm.alarm_code <;> simp

/-- C10: invoked without a database session — as the manual per-alarm
generate endpoint does — the factory bypasses the rule chain and always
returns action MANUAL_INSPECTION with rationale "Manual inspection
required.", and the endpoint stores exactly such a recommendation; the rule
chain itself can never produce MANUAL_INSPECTION. -/
theorem sessionless_factory_manual_inspection :
    (∀ alarm : Alarm,
      (generate_recommendation alarm none).action = .manual_inspection ∧
      (generate_recommendation alarm none).rationale = "Manual inspection required.") ∧
    (∀ (db : WorkerDB) (aid nid : Nat) (alarm : Alarm),
      db.alarms.find? (fun a => a.id == aid) = some alarm →
      (generate_recommendation_for_alarm db aid nid).1.recommendations =
        db.recommendations ++
          [recommendation_of_data nid (generate_recommendation alarm none)]) ∧
    (∀ (alarm : Alarm) (hist : List Alarm),
      (decide_action alarm hist).1 ≠ .manual_inspection) := by
  refine ⟨?_, ?_, ?_⟩
  · intro alarm
    unfold generate_recommendation generate_generic_recommendation
    cases ALARM_RULES alarm.alarm_code <;> simp
  · intro db aid nid alarm h
    simp [generate_recommendation_for_alarm, h]
  · intro alarm hist
    rcases decide_action_hits_rule_table alarm hist with h | h | h <;> simp [h]

/-- `update_turbine_state` is the identity when the turbine it finds is
already in the state the action maps to. -/
theorem update_turbine_state_fixed (ts : List Turbine) (i : Nat)
    (a : RecommendationAction) (n : Int) (t : Turbine)
    (h : ts.find? (fun u => u.id == i) = some t)
    (hs : action_new_state a t.state = t.state) :
    update_turbine_state ts i a n = ts := by
  simp [update_turbine_state, h, hs]

/-- C8: the state machine writes a new state and stamps `last_state_change`
and `updated_at` only on an actual transition — applying the same action
twice in a row equals applying it once (the second application is a no-op,
so the transition timestamp moves only on the first), and MANUAL_INSPECTION
never changes the store at all. -/
theorem state_machine_noop_on_repeat :
    (∀ (ts : List Turbine) (i : Nat) (a : RecommendationAction) (n1 n2 : Int),
      update_turbine_state (update_turbine_state ts i a n1) i a n2 =
        update_turbine_state ts i a n1) ∧
    (∀ (ts : List Turbine) (i : Nat) (n : Int),
      update_turbine_state ts i .manual_inspection n = ts) := by
  constructor
  · intro ts i a n1 n2
    rcases h : ts.find? (fun u => u.id == i) with _ | t
    · simp [update_turbine_state, h]
    · by_cases hs : action_new_state a t.state = t.state
      · rw [update_turbine_state_fixed ts i a n1 t h hs,
          update_turbine_state_fixed ts i a n2 t h hs]
      · have h1 : update_turbine_state ts i a n1 =
            ts.map (fun u => if u.id == i then
              { u with
                state := action_new_state a t.state
                last_state_change := some n1
                updated_at := n1 }
              else u) := by
          simp [update_turbine_state, h, hs]
        have hpres : ∀ u : Turbine,
            (((fun u => if u.id == i then
              { u with
                state := action_new_state a t.state
                last_state_change := some n1
                updated_at := n1 }
              else u) u).id == i)
              = (u.id == i) := by
          intro u
          by_cases hu : (u.id == i) = true <;> simp [hu]
        have hid : (t.id == i) = true := by simpa using List.find?_some h
        have hfind : (ts.map (fun u => if u.id == i then
            { u with
              state := action_new_state a t.state
              last_state_change := some n1
              updated_at := n1 }
            else u)).find?
              (fun u => u.id == i) =
            some { t with
              state := action_new_state a t.state
              last_state_change := some n1
              updated_at := n1 } := by
          rw [find?_map_pres _ _ hpres ts, h]
          simp [hid]
          intro hne
          exact absurd (by simpa using hid) hne
        rw [h1]
        exact update_turbine_state_fixed _ i a n2 _ hfind
          (by simp [action_new_state_idem])
  · intro ts i n
    rcases h : ts.find? (fun u => u.id == i) with _ | t
    · simp [update_turbine_state, h]
    · exact update_turbine_state_fixed ts i _ n t h rfl

/-- C9: the reconciliation loop never re-decides an expired snoozed
recommendation whose originating event is resolved or acknowledged — the
item is skipped wholesale, so no new recommendation is created, no asset
state changes, and the old recommendation's deferral timestamp stays set. -/
theorem reconciliation_skips_terminal_events (db : WorkerDB) (now : Int)
    (newRecId : Nat) (rec : Recommendation) (alarm : Alarm)
    (hfind : db.alarms.find? (fun a => a.id == rec.alarm_db_id) = some alarm)
    (hstatus : alarm.status = .resolved ∨ alarm.status = .acknowledged) :
    process_expired_recommendation db now newRecId rec = db := by
  unfold process_expired_recommendation
  rw [hfind]
  rcases hstatus with h | h <;> simp [h]

/-- `reconciliation_skips_terminal_events` at the concrete store `db_skip`,
whose only alarm is resolved while `old_rec` has an elapsed deferral. -/
theorem reconciliation_skips_terminal_events_witness :
    db_skip.alarms.find? (fun a => a.id == old_rec.alarm_db_id) =
      some { yaw_alarm with status := .resolved } ∧
    process_expired_recommendation db_skip 5 2 old_rec = db_skip :=
  ⟨rfl, reconciliation_skips_terminal_events db_skip 5 2 old_rec
    { yaw_alarm with status := .resolved } rfl (Or.inl rfl)⟩

/-- C3 (amended): the factory preserves the snooze biconditional — its output
never carries action SNOOZE and its stored row always has a null deferral
timestamp, so "snooze_until non-null iff action SNOOZE" holds of every
factory recommendation — and manual creation persists nothing (it dies on a
duplicate keyword); the reconciliation supersession, by contrast, clears the
deferral timestamp while the superseded recommendation's action remains
SNOOZE. -/
theorem factory_snooze_biconditional :
    (∀ (alarm : Alarm) (s : Option (List Alarm)) (i : Nat),
      (generate_recommendation alarm s).action ≠ .snooze ∧
      (recommendation_of_data i (generate_recommendation alarm s)).snooze_until = none ∧
      ((recommendation_of_data i (generate_recommendation alarm s)).snooze_until ≠ none ↔
        (recommendation_of_data i (generate_recommendation alarm s)).action = some .snooze)) ∧
    (∀ (db : WorkerDB) (rc : RecommendationCreate),
      (create_manual_recommendation db rc).1 = db) := by
  constructor
  · intro alarm s i
    have hact : (generate_recommendation alarm s).action ≠ .snooze := by
      rcases s with _ | hist
      · unfold generate_recommendation generate_generic_recommendation
        cases ALARM_RULES alarm.alarm_code <;> simp
      · unfold generate_recommendation generate_generic_recommendation
        rcases decide_action_hits_rule_table alarm hist with h | h | h <;>
          cases ALARM_RULES alarm.alarm_code <;> simp [h]
    exact ⟨hact, rfl,
      ⟨fun hsn => (hsn rfl).elim, fun hac => absurd (Option.some.inj hac) hact⟩⟩
  · intro db rc
    unfold create_manual_recommendation
    rcases h : db.alarms.find? (fun a => a.id == rc.alarm_id) with _ | t <;> simp [h]

/-- C3 counterexample: the reconciliation supersession applied to the
concrete expired snoozed recommendation `old_rec` (whose originating alarm
is active) leaves a stored recommendation with action SNOOZE and a null
deferral timestamp, so supersession does not preserve the biconditional. -/
theorem supersession_violates_snooze_biconditional :
    old_rec ∈ expired_snoozed db_snooze.recommendations 5 ∧
    old_rec.action = some .snooze ∧ old_rec.snooze_until = some 0 ∧
    ((process_expired_recommendation db_snooze 5 2 old_rec).recommendations.any
      fun r => r.action == some RecommendationAction.snooze && r.snooze_until == none) = true :=
  ⟨by decide, rfl, rfl, by decide⟩

/-- C2 (code bug): for every ingestion request the resulting store keeps its
turbines unchanged and the request errors — the source calls
`RulesEngine.update_turbine_state` with four arguments against its
three-parameter signature, raising `TypeError` — while, whenever the turbine
exists, the alarm and the factory recommendation are nevertheless left
committed by their own earlier, separate transactions; so the asset state
never reflects the decided action and the three writes are not atomic. -/
theorem ingest_commits_but_never_updates_state (db : WorkerDB) (ac : AlarmCreate)
    (newAlarmId newRecId : Nat) :
    (ingest_alarm db ac newAlarmId newRecId).1.turbines = db.turbines ∧
    (∀ n, (ingest_alarm db ac newAlarmId newRecId).2 ≠ .ok n) ∧
    (∀ t, db.turbines.find? (fun u => u.turbine_id == ac.turbine_id) = some t →
      (ingest_alarm db ac newAlarmId newRecId).1.alarms =
        db.alarms ++ [ingested_alarm ac t newAlarmId] ∧
      (ingest_alarm db ac newAlarmId newRecId).1.recommendations =
        db.recommendations ++ [recommendation_of_data newRecId
          (generate_recommendation (ingested_alarm ac t newAlarmId)
            (some (db.alarms ++ [ingested_alarm ac t newAlarmId])))]) := by
  rcases h : db.turbines.find? (fun u => u.turbine_id == ac.turbine_id) with _ | t
  · refine ⟨by simp [ingest_alarm, h], fun n => by simp [ingest_alarm, h], ?_⟩
    intro u hu
    rw [h] at hu
    exact absurd hu (by simp)
  · refine ⟨by simp [ingest_alarm, h], fun n => by simp [ingest_alarm, h], ?_⟩
    intro u hu
    rw [h] at hu
    injection hu with hu
    subst hu
    exact ⟨by simp [ingest_alarm, h], by simp [ingest_alarm, h]⟩

/-- `ingest_commits_but_never_updates_state` at the concrete store
`db_ingest` and request `grid_request`: the turbine is found, the alarm is
committed, and the turbine list is untouched. -/
theorem ingest_commits_but_never_updates_state_witness :
    db_ingest.turbines.find? (fun u => u.turbine_id == grid_request.turbine_id) =
      some turbine_one ∧
    (ingest_alarm db_ingest grid_request 1 1).1.turbines = db_ingest.turbines ∧
    (ingest_alarm db_ingest grid_request 1 1).1.alarms =
      db_ingest.alarms ++ [ingested_alarm grid_request turbine_one 1] :=
  ⟨rfl, (ingest_commits_but_never_updates_state db_ingest grid_request 1 1).1,
    ((ingest_commits_but_never_updates_state db_ingest grid_request 1 1).2.2
      turbine_one rfl).1⟩
